import Mathlib

/-!
Verification of the statement-execution protocol client in
`src/sqlalchemy_dialect/dbapi.py` (a PEP-249 style driver for an
HTTP-based asynchronous query service).

The embedding models the pure data flow of the module: JSON scalar
values, the positional-parameter rewriting in `Cursor.execute`, the
status-polling loop `Cursor._poll_for_results` (with rational arithmetic
standing in for Python floats -- every number the loop manipulates is a
small dyadic rational, exactly representable in binary64, so the model
is exact), the pagination/materialization loop `Cursor._fetch_results`,
the credential-resolution block of `Cursor.__init__`, and the
closed-state checks of `Cursor` and `Connection`.  Fallible Python code
(statements that can raise) is embedded as `Except`/`Option`-valued
functions; the unbounded `while` loops take a fuel argument, with
`none` meaning the loop is still running when the fuel runs out.
-/

namespace Opteryx

/-- JSON scalar values appearing in result pages and parameter bindings. -/
inductive Val where
  | int (n : ℤ)
  | str (s : String)
  | null
deriving DecidableEq, Repr

/-- A result row: `tuple(...)` of values in the Python module. -/
abbrev Row := List Val

/-- The exception classes raised by `dbapi.py` (plus the two raw Python
exception groups that the credential-resolution block can raise and
absorb: `requests.exceptions.RequestException` and a generic
`Exception`, e.g. a JSON decoding failure; and `IndexError`, raised by
out-of-range indexing during columnar transposition). -/
inductive PyErr where
  | programmingError (msg : String)
  | databaseError (msg : String)
  | operationalError (msg : String)
  | indexError
  | requestException
  | otherException
deriving DecidableEq, Repr

/-! ## Parameter binding (`Cursor.execute`, dbapi.py lines 213-223) -/

/-- Python `s.replace(pat, rep, 1)` on character lists for a non-empty
pattern: replace the leftmost occurrence of `pat` by `rep`. -/
def replaceFirstAux (pat rep : List Char) : List Char → List Char
  | [] => []
  | c :: cs =>
    if pat.isPrefixOf (c :: cs) then rep ++ (c :: cs).drop pat.length
    else c :: replaceFirstAux pat rep cs

/-- Python `s.replace(pat, rep, 1)` on strings (used with `pat = "?"`). -/
def replaceFirst (s pat rep : String) : String :=
  ⟨replaceFirstAux pat.data rep.data s.data⟩

/-- The synthetic named mapping built from a positional parameter
sequence: `{f"p{i}": v for i, v in enumerate(parameters)}`. -/
def positionalToNamed (parameters : List Val) : List (String × Val) :=
  parameters.enum.map (fun p => ("p" ++ toString p.1, p.2))

/-- The placeholder rewriting loop: for `i in range(len(parameters))`,
`operation = operation.replace("?", f":p{i}", 1)`. -/
def rewritePlaceholders (operation : String) (n : ℕ) : String :=
  (List.range n).foldl (fun op i => replaceFirst op "?" (":p" ++ toString i)) operation

/-- Parameters accepted by `Cursor.execute`: either a name→value mapping
(passed through verbatim) or a positional sequence. -/
inductive Params where
  | named (m : List (String × Val))
  | positional (vs : List Val)
deriving DecidableEq, Repr

/-- The parameter-conversion prelude of `Cursor.execute` (lines 213-223):
returns the (possibly rewritten) SQL text and the name→value mapping
submitted to the server (`none` when no parameters were given). -/
def bindParams (operation : String) (parameters : Option Params) :
    String × Option (List (String × Val)) :=
  match parameters with
  | none => (operation, none)
  | some (.named m) => (operation, some m)
  | some (.positional vs) =>
      (rewritePlaceholders operation vs.length, some (positionalToNamed vs))

/-! ## Status polling (`Cursor._poll_for_results`, dbapi.py lines 237-265)

Python floats are modelled by `ℚ`.  Every quantity the loop computes is
a dyadic rational with magnitude far below `2^53` (the interval sequence
is `3^n / 2^(n+1)` until it caps at `5.0`, and `elapsed` is a sum of at
most 64 such terms), so binary64 arithmetic is exact on all of them and
the rational model agrees with the Python execution step for step. -/

/-- The parsed body of a status response:
`{status: {state, description?}, ...}`.  A missing field is `none`; the
code reads them as `status.get("status", {}).get("state", "UNKNOWN")`
and `.get("description", "Unknown error")`. -/
structure StatusResponse where
  state : Option String
  description : Option String
deriving DecidableEq, Repr

/-- `state in ("SUCCEEDED", "SUCCESS", "COMPLETED")`. -/
def isSucceededState (s : String) : Bool :=
  s = "SUCCEEDED" || s = "SUCCESS" || s = "COMPLETED"

/-- `state in ("FAILED", "ERROR", "CANCELLED")`. -/
def isFailedState (s : String) : Bool :=
  s = "FAILED" || s = "ERROR" || s = "CANCELLED"

/-- `state in ("SUBMITTED", "RUNNING", "PENDING", "EXECUTING")`. -/
def isPendingState (s : String) : Bool :=
  s = "SUBMITTED" || s = "RUNNING" || s = "PENDING" || s = "EXECUTING"

/-- Outcome of the polling loop.  `sleeps` records the arguments of the
`time.sleep` calls in order; `polls` counts the status requests issued.
`success` corresponds to reaching the branch that calls
`_fetch_results`, `dbError` to a raised `DatabaseError` (failed /
cancelled / unknown state), `timeout` to falling out of the `while` and
raising `OperationalError`. -/
inductive PollResult where
  | success (sleeps : List ℚ) (polls : ℕ)
  | dbError (msg : String) (sleeps : List ℚ) (polls : ℕ)
  | timeout (sleeps : List ℚ) (polls : ℕ)
deriving DecidableEq, Repr

/-- Prepend one pending iteration (one status request followed by one
`time.sleep q`) to a poll outcome. -/
def PollResult.withSleep (q : ℚ) : PollResult → PollResult
  | .success s p => .success (q :: s) (p + 1)
  | .dbError m s p => .dbError m (q :: s) (p + 1)
  | .timeout s p => .timeout (q :: s) (p + 1)

/-- The sleep intervals recorded in a poll outcome. -/
def PollResult.sleeps : PollResult → List ℚ
  | .success s _ => s
  | .dbError _ s _ => s
  | .timeout s _ => s

/-- The number of status requests recorded in a poll outcome. -/
def PollResult.polls : PollResult → ℕ
  | .success _ p => p
  | .dbError _ _ p => p
  | .timeout _ p => p

/-- The `while elapsed < max_wait` loop of `_poll_for_results`, with
`max_wait = 300`.  `statuses i` is the body of the `i`-th status
response; `interval` and `elapsed` are the Python locals
`poll_interval` and `elapsed`.  `fuel` bounds the number of iterations;
`none` means the loop was still running when the fuel ran out. -/
def pollAux (statuses : ℕ → StatusResponse) :
    ℕ → ℕ → ℚ → ℚ → Option PollResult
  | 0, _, _, _ => none
  | fuel + 1, i, interval, elapsed =>
    if elapsed < 300 then
      if isSucceededState ((statuses i).state.getD "UNKNOWN") then
        some (.success [] 1)
      else if isFailedState ((statuses i).state.getD "UNKNOWN") then
        some (.dbError ("Statement execution failed: " ++
          (statuses i).description.getD "Unknown error") [] 1)
      else if isPendingState ((statuses i).state.getD "UNKNOWN") then
        match pollAux statuses fuel (i + 1) (min (interval * (3 / 2)) 5) (elapsed + interval) with
        | none => none
        | some r => some (r.withSleep interval)
      else
        some (.dbError ("Unknown statement state: " ++
          (statuses i).state.getD "UNKNOWN") [] 1)
    else
      some (.timeout [] 0)

/-- `Cursor._poll_for_results` from its initial locals
(`poll_interval = 0.5`, `elapsed = 0.0`). -/
def pollForResults (statuses : ℕ → StatusResponse) (fuel : ℕ) : Option PollResult :=
  pollAux statuses fuel 0 (1 / 2) 0

/-- The interval sequence generated from a starting interval `q`:
each pending poll multiplies by `1.5` and caps at `5.0`. -/
def intervalSeq (q : ℚ) : ℕ → ℚ
  | 0 => q
  | n + 1 => min (intervalSeq q n * (3 / 2)) 5

/-- The backoff sequence of the spec: `0.5, 0.75, 1.125, ...` capped at
`5.0`. -/
def backoff : ℕ → ℚ := intervalSeq (1 / 2)

/-- Cumulative sleep before the `k`-th poll, when polling starts from
interval `q`. -/
def partialSleep (q : ℚ) (k : ℕ) : ℚ :=
  ((List.range k).map (intervalSeq q)).sum

/-! ## Result pages and materialization (`Cursor._fetch_results`,
dbapi.py lines 267-336) -/

/-- One entry of the `columns` metadata list; the code reads
`col.get("name", f"col{i}")`, so the name may be absent. -/
structure ColumnMeta where
  name : Option String
deriving DecidableEq, Repr

/-- One entry of a column-oriented data payload: a dict carrying a
column name and that column's value slice (`col.get("name", ...)`,
`col.get("values", [])`). -/
structure ColEntry where
  name : Option String
  values : List Val
deriving DecidableEq, Repr

/-- The data payload of a page.  The code sniffs the shape from the
first element: `isinstance(data[0], dict) and "values" in data[0]`
selects columnar processing, anything else (including an empty list) is
treated as row-oriented. -/
inductive PageData where
  | rowData (rs : List Row)
  | colData (cs : List ColEntry)
deriving DecidableEq, Repr

/-- A parsed result page as consumed by `_fetch_results`:
`total_rows` is `none` when the key is absent, `some none` when present
but not `int(...)`-convertible, `some (some t)` otherwise;
`next_page` is the truthiness of `result.get("next_page")`. -/
structure ResultPage where
  total_rows : Option (Option ℤ)
  columns : List ColumnMeta
  data : PageData
  next_page : Bool
deriving DecidableEq, Repr

/-- `col.get("name", f"col{i}")`: the display name of the `i`-th column. -/
def colName (i : ℕ) (o : Option String) : String :=
  o.getD ("col" ++ toString i)

/-- The description derived from a list of optional column names
(used both for the `columns` metadata and for columnar data entries).
Only the name component is modelled: the remaining six slots of each
PEP-249 description tuple are the constant `None` in the code. -/
def descriptionFrom (names : List (Option String)) : List String :=
  names.enum.map (fun p => colName p.1 p.2)

/-- Evaluate `g` on every element of a list, collecting the results;
`none` as soon as any evaluation fails (models a raised `IndexError`
escaping a Python comprehension). -/
def mapOpt (g : α → Option β) : List α → Option (List β)
  | [] => some []
  | a :: as =>
      match g a, mapOpt g as with
      | some b, some bs => some (b :: bs)
      | _, _ => none

/-- The transposition of columnar value lists (dbapi.py lines 309-314):
`n_local = len(values_lists[0])`; row `i` is
`tuple(values_lists[j][i] for j in range(len(values_lists)))`.
Returns `none` when some column is shorter than the first one, in which
case the Python indexing raises `IndexError`. -/
def transposeCols (valuesLists : List (List Val)) : Option (List Row) :=
  match valuesLists with
  | [] => some []
  | v0 :: _ =>
      mapOpt (fun i => mapOpt (fun vs => vs.get? i) valuesLists)
        (List.range v0.length)

/-- The mutable state of the `_fetch_results` loop: the local `rows`
accumulator, the cursor field `self._description`, the local flag
`has_description`, and the local `total_rows`. -/
structure FetchState where
  rows : List Row
  description : Option (List String)
  hasDescription : Bool
  totalRows : Option ℤ
deriving DecidableEq, Repr

/-- The per-page body of the `_fetch_results` loop (lines 283-318),
from receiving a parsed page to the end of data processing.  On the
`IndexError` path the error payload carries the value of
`self._description` at the moment of the raise (the columnar branch
sets the description before transposing). -/
def processPage (st : FetchState) (page : ResultPage) :
    Except (Option (List String)) FetchState :=
  let tr : Option ℤ :=
    match st.totalRows, page.total_rows with
    | none, some v => v
    | t, _ => t
  let d1 : Option (List String) × Bool :=
    if page.columns ≠ [] ∧ st.hasDescription = false then
      (some (descriptionFrom (page.columns.map (·.name))), true)
    else (st.description, st.hasDescription)
  match page.data with
  | .rowData rs =>
      .ok { rows := st.rows ++ rs, description := d1.1, hasDescription := d1.2,
            totalRows := tr }
  | .colData cs =>
      if cs = [] then
        .ok { rows := st.rows, description := d1.1, hasDescription := d1.2,
              totalRows := tr }
      else
        let d2 : Option (List String) × Bool :=
          if d1.2 = false then
            (some (descriptionFrom (cs.map (·.name))), true)
          else d1
        match transposeCols (cs.map (·.values)) with
        | some newRows =>
            .ok { rows := st.rows ++ newRows, description := d2.1,
                  hasDescription := d2.2, totalRows := tr }
        | none => .error d2.1

/-- The finalized result of `_fetch_results`
(`self._rows = rows; self._rowcount = len(self._rows)`), plus the
number of page fetches the loop performed. -/
structure FetchResult where
  rows : List Row
  description : Option (List String)
  rowcount : ℤ
  fetches : ℕ
deriving DecidableEq, Repr

/-- Outcome of the `_fetch_results` loop: normal completion, or an
`IndexError` escaping from the columnar transposition (carrying the
description at the raise and the number of fetches made). -/
inductive FetchOutcome where
  | ok (r : FetchResult)
  | indexError (descAtRaise : Option (List String)) (fetches : ℕ)
deriving DecidableEq, Repr

/-- `total_rows is not None and offset >= total_rows`
(the second break of the pagination loop, line 327). -/
def totalReached (tr : Option ℤ) (offset : ℕ) : Bool :=
  match tr with
  | some t => decide ((offset : ℤ) ≥ t)
  | none => false

/-- `total_rows is None or offset >= total_rows`
(part of the third break of the pagination loop, line 331). -/
def totalNoneOrReached (tr : Option ℤ) (offset : ℕ) : Bool :=
  match tr with
  | some t => decide ((offset : ℤ) ≥ t)
  | none => true

/-- A page server: `pages numRows offset` is the parsed page returned
by `Connection._get_statement_results(handle, num_rows, offset)`. -/
def PageServer := ℕ → ℕ → ResultPage

/-- The `while True` pagination loop of `_fetch_results`
(lines 278-332).  `fuel` bounds the number of iterations; `none` means
the loop was still running when the fuel ran out. -/
def fetchAux (server : PageServer) (pageSize : ℕ) :
    ℕ → ℕ → FetchState → ℕ → Option FetchOutcome
  | 0, _, _, _ => none
  | fuel + 1, offset, st, fetches =>
    let page := server pageSize offset
    match processPage st page with
    | .error d => some (.indexError d (fetches + 1))
    | .ok st' =>
      let fetchedThisPage : ℤ := (st'.rows.length : ℤ) - (offset : ℤ)
      if fetchedThisPage ≤ 0 then
        some (.ok ⟨st'.rows, st'.description, st'.rows.length, fetches + 1⟩)
      else
        let offset' := offset + fetchedThisPage.toNat
        if totalReached st'.totalRows offset' then
          some (.ok ⟨st'.rows, st'.description, st'.rows.length, fetches + 1⟩)
        else if !page.next_page && totalNoneOrReached st'.totalRows offset' then
          some (.ok ⟨st'.rows, st'.description, st'.rows.length, fetches + 1⟩)
        else
          fetchAux server pageSize fuel offset' st' (fetches + 1)

/-- `Cursor._fetch_results` from its initial locals:
`page_size = max(1, self._arraysize)`, `offset = 0`, empty
accumulators. -/
def fetchResults (server : PageServer) (arraysize : ℕ) (fuel : ℕ) :
    Option FetchOutcome :=
  fetchAux server (max 1 arraysize) fuel 0 ⟨[], none, false, none⟩ 0

/-! ## Credential resolution (`Cursor.__init__`, dbapi.py lines 113-159) -/

/-- Python truthiness of an optional string: absent (`None`) and the
empty string are falsy. -/
def pyTruthy (o : Option String) : Bool :=
  match o with
  | none => false
  | some s => !s.isEmpty

/-- Python `a or b` on optional strings: `a` when truthy, else `b`. -/
def pyOr (a b : Option String) : Option String :=
  if pyTruthy a then a else b

/-- `Connection._normalize_domain` (lines 443-456): strip the known
subdomain prefixes `"data."` then `"auth."` from the host. -/
def normalizeDomain (host : String) : String :=
  let d1 := if "data.".isPrefixOf host then host.drop 5 else host
  if "auth.".isPrefixOf d1 then d1.drop 5 else d1

/-- The auth-host rule of `Cursor.__init__` (lines 125-129): add the
`auth.` prefix only for DNS-style domains, not `localhost` or bare
names. -/
def authHost (host : String) : String :=
  let domain := normalizeDomain host
  if domain.contains '.' && !("localhost".isPrefixOf domain) then
    "auth." ++ domain
  else domain

/-- The token endpoint URL built by `Cursor.__init__` (line 131). -/
def authUrl (host : String) (ssl : Bool) : String :=
  (if ssl then "https" else "http") ++ "://" ++ authHost host ++ "/token"

/-- The parsed JSON body of a token response; the code probes
`access_token`, `token` and `jwt` in that order. -/
structure TokenBody where
  access_token : Option String
  token : Option String
  jwt : Option String
deriving DecidableEq, Repr

/-- The outcome of the token POST as seen by the Python code:
a `requests` transport/HTTP failure (including `raise_for_status`),
a 2xx response whose body fails to parse as JSON (raises a generic
exception from `resp.json()`), or a parsed body (an empty `resp.text`
yields the all-absent body `{}`). -/
inductive AuthHttp where
  | transportError
  | badJson
  | ok (body : TokenBody)
deriving DecidableEq, Repr

/-- The authentication outcome recorded on the cursor and the shared
session: `self._jwt_token` and the `Authorization` header installed on
`self._connection._session.headers`. -/
structure AuthState where
  jwtToken : Option String
  sessionAuthHeader : Option String
deriving DecidableEq, Repr

/-- `token = body.get("access_token") or body.get("token") or body.get("jwt")`. -/
def tokenFromBody (body : TokenBody) : Option String :=
  pyOr (pyOr body.access_token body.token) body.jwt

/-- The body of the `try` block in `Cursor.__init__` (lines 115-153);
this is the part that can raise.  When either credential is missing or
falsy the whole block is skipped (`if username and secret:`). -/
def authTryBody (username secret : Option String) (host : String) (ssl : Bool)
    (http : AuthHttp) : Except PyErr AuthState :=
  if pyTruthy username && pyTruthy secret then
    -- the request goes to `authUrl host ssl`; its outcome is `http`
    match http with
    | .transportError => .error .requestException
    | .badJson => .error .otherException
    | .ok body =>
        let token := tokenFromBody body
        if pyTruthy token then
          .ok ⟨token, token.map (fun t => "Bearer " ++ t)⟩
        else
          .ok ⟨none, none⟩
  else .ok ⟨none, none⟩

/-- The credential-resolution step of `Cursor.__init__` with its
enclosing `try`/`except` (lines 113-159): any exception raised by the
body is absorbed and leaves the cursor without a token. -/
def cursorAuthInit (username secret : Option String) (host : String) (ssl : Bool)
    (http : AuthHttp) : AuthState :=
  match authTryBody username secret host ssl http with
  | .ok st => st
  | .error _ => ⟨none, none⟩

/-! ## Connection and cursor state, fetch operations, execute -/

/-- The closed-state of a `Connection`.  The other constructor fields
(host, port, credentials, base URL, session headers) do not influence
any behaviour the claims are about and are carried by the separate
models above (`authHost`, `ServerBehavior`, ...). -/
structure Connection where
  closed : Bool
deriving DecidableEq, Repr

/-- `Connection.close` (lines 554-558): closes the pooled session and
marks the connection closed.  It touches no cursor object. -/
def Connection.close (c : Connection) : Connection :=
  { c with closed := true }

/-- `Connection._check_closed` (lines 471-474). -/
def Connection.checkClosed (c : Connection) : Except PyErr Unit :=
  if c.closed then .error (.programmingError "Connection is closed") else .ok ()

/-- The mutable state of a `Cursor` (fields set in `Cursor.__init__`). -/
structure Cursor where
  closed : Bool
  rows : List Row
  rowIndex : ℕ
  description : Option (List String)
  rowcount : ℤ
  arraysize : ℕ
  statementHandle : Option String
deriving DecidableEq, Repr

/-- `Cursor.close` (lines 182-186): sets the flag and clears the buffer
and description. -/
def Cursor.close (c : Cursor) : Cursor :=
  { c with closed := true, rows := [], description := none }

/-- `Cursor.fetchone` (lines 349-356).  Note that it consults only the
cursor's own closed flag, never the connection's. -/
def Cursor.fetchone (c : Cursor) : Except PyErr (Option Row × Cursor) :=
  if c.closed then .error (.programmingError "Cursor is closed")
  else if c.rowIndex ≥ c.rows.length then .ok (none, c)
  else .ok (c.rows.get? c.rowIndex, { c with rowIndex := c.rowIndex + 1 })

/-- `Cursor.fetchmany` (lines 358-365): slice
`self._rows[self._row_index : self._row_index + size]`, defaulting
`size` to `self._arraysize`. -/
def Cursor.fetchmany (c : Cursor) (size : Option ℕ) :
    Except PyErr (List Row × Cursor) :=
  if c.closed then .error (.programmingError "Cursor is closed")
  else
    let sz := size.getD c.arraysize
    let out := (c.rows.drop c.rowIndex).take sz
    .ok (out, { c with rowIndex := c.rowIndex + out.length })

/-- `Cursor.fetchall` (lines 367-372). -/
def Cursor.fetchall (c : Cursor) : Except PyErr (List Row × Cursor) :=
  if c.closed then .error (.programmingError "Cursor is closed")
  else .ok (c.rows.drop c.rowIndex, { c with rowIndex := c.rows.length })

/-- The parsed body of a statement-submission response;
`response.get("statementHandle")` is `none` when the field is absent. -/
structure SubmitResponse where
  statementHandle : Option String
deriving DecidableEq, Repr

/-- The behaviour of the remote service during one `execute` call:
the outcome of `Connection._submit_statement`'s HTTP exchange
(`.error` for the mapped transport/HTTP failures), the sequence of
status responses, and the page served for each
`(num_rows, offset)` request. -/
structure ServerBehavior where
  submit : Except PyErr SubmitResponse
  statuses : ℕ → StatusResponse
  pages : PageServer

/-- `Cursor.execute` (lines 193-235): reset the materialized state,
bind parameters, submit, poll, and on success materialize the result
pages.  The returned pair is the raised exception (if any) together
with the cursor state observable afterwards; `none` means an inner
loop was still running when `fuel` ran out. -/
def Cursor.execute (conn : Connection) (b : ServerBehavior) (fuel : ℕ)
    (cur : Cursor) (operation : String) (parameters : Option Params) :
    Option (Except PyErr Unit × Cursor) :=
  if cur.closed then
    some (.error (.programmingError "Cursor is closed"), cur)
  else
    let cur0 : Cursor :=
      { cur with rows := [], rowIndex := 0, description := none, rowcount := -1 }
    -- parameter conversion; the rewritten text and mapping go into the
    -- submission payload and are not observed further here
    let _bound := bindParams operation parameters
    -- `Connection._submit_statement` starts with `self._check_closed()`
    if conn.closed then
      some (.error (.programmingError "Connection is closed"), cur0)
    else
      match b.submit with
      | .error e => some (.error e, cur0)
      | .ok resp =>
        let cur1 := { cur0 with statementHandle := resp.statementHandle }
        if pyTruthy resp.statementHandle = false then
          some (.error (.databaseError "No statement handle returned from server"), cur1)
        else
          match pollForResults b.statuses fuel with
          | none => none
          | some (.dbError m _ _) => some (.error (.databaseError m), cur1)
          | some (.timeout _ _) =>
              some (.error (.operationalError "Statement execution timed out"), cur1)
          | some (.success _ _) =>
              match fetchResults b.pages cur1.arraysize fuel with
              | none => none
              | some (.indexError d _) =>
                  some (.error .indexError, { cur1 with description := d })
              | some (.ok r) =>
                  some (.ok (),
                    { cur1 with rows := r.rows, description := r.description,
                                rowcount := r.rowcount })

/-! ## Concrete scenarios used to instantiate the claims -/

/-- The single column-oriented page
`{columns: [{name: "id", values: [1, 2]}, {name: "name", values: ["a", "b"]}]}`
(no dedicated column metadata, no total, no next page). -/
def columnarPage : ResultPage :=
  { total_rows := none
    columns := []
    data := .colData [⟨some "id", [.int 1, .int 2]⟩, ⟨some "name", [.str "a", .str "b"]⟩]
    next_page := false }

/-- A column-oriented page with value sequences of unequal lengths:
the second column is shorter than the first. -/
def unevenColumnarPage : ResultPage :=
  { total_rows := none
    columns := []
    data := .colData [⟨some "id", [.int 1, .int 2]⟩, ⟨some "name", [.str "a"]⟩]
    next_page := false }

/-- A column-oriented page whose first column is the shortest. -/
def shortFirstColumnarPage : ResultPage :=
  { total_rows := none
    columns := []
    data := .colData [⟨some "id", [.int 7]⟩, ⟨some "x", [.int 8, .int 9]⟩]
    next_page := false }

/-- A server reporting `total_rows = 5` that serves row-oriented pages
of 2, 2 and 1 rows at offsets 0, 2 and 4. -/
def fiveRowServer : PageServer := fun _ offset =>
  if offset = 0 then
    ⟨some (some 5), [⟨some "id"⟩], .rowData [[.int 1], [.int 2]], true⟩
  else if offset = 2 then
    ⟨some (some 5), [⟨some "id"⟩], .rowData [[.int 3], [.int 4]], true⟩
  else if offset = 4 then
    ⟨some (some 5), [⟨some "id"⟩], .rowData [[.int 5]], false⟩
  else
    ⟨some (some 5), [⟨some "id"⟩], .rowData [], false⟩

/-- A server that always returns an empty row-oriented page. -/
def emptyPageServer : PageServer := fun _ _ =>
  ⟨none, [], .rowData [], true⟩

/-- Status responses: pending (`RUNNING`) for the first two polls, then
`SUCCEEDED`. -/
def twoPendingStatuses : ℕ → StatusResponse := fun i =>
  if i < 2 then ⟨some "RUNNING", none⟩ else ⟨some "SUCCEEDED", none⟩

/-- Status responses that report `RUNNING` forever. -/
def foreverPending : ℕ → StatusResponse := fun _ => ⟨some "RUNNING", none⟩

/-- A cursor holding a materialized single-row result, as left behind
by a completed execution; its own `close` was never called. -/
def outstandingCursor : Cursor :=
  ⟨false, [[Val.int 1]], 0, some ["id"], 1, 1, some "h"⟩

/-- A page server whose first page is row-oriented (and carries column
metadata) and whose second page is columnar with a short second column,
so that processing the second page raises `IndexError` after the
description has already been captured from the first page. -/
def failingSecondPageServer : PageServer := fun _ offset =>
  if offset = 0 then
    ⟨none, [⟨some "id"⟩], .rowData [[.int 1], [.int 2]], true⟩
  else
    ⟨none, [], .colData [⟨some "a", [.int 3, .int 4]⟩, ⟨some "b", [.int 9]⟩], true⟩

/-- A server behaviour whose submission succeeds, whose statement
succeeds immediately, and whose result pages are
`failingSecondPageServer`. -/
def failingFetchBehavior : ServerBehavior :=
  ⟨.ok ⟨some "h"⟩, fun _ => ⟨some "SUCCEEDED", none⟩, failingSecondPageServer⟩

/-- A cursor still holding the previous statement's materialized result
(one buffered row, one row already read). -/
def staleCursor : Cursor :=
  ⟨false, [[Val.int 99]], 1, some ["old"], 1, 1, none⟩

/-- A trivial server behaviour (submission succeeds, statement
succeeds, every page is empty). -/
def trivialBehavior : ServerBehavior :=
  ⟨.ok ⟨some "h"⟩, fun _ => ⟨some "SUCCEEDED", none⟩, emptyPageServer⟩

/-! ## Theorems -/

/-- **C8.** Executing with the positional parameter sequence
`("Earth", 1)` against `"SELECT * FROM t WHERE name=? AND id=?"` binds
the named mapping `{p0: "Earth", p1: 1}` and submits the rewritten text
`"SELECT * FROM t WHERE name=:p0 AND id=:p1"`: each literal `?` is
replaced left to right by `:p0`, `:p1`, one substitution per positional
argument. -/
theorem execute_positional_binding :
    bindParams "SELECT * FROM t WHERE name=? AND id=?"
        (some (.positional [Val.str "Earth", Val.int 1])) =
      ("SELECT * FROM t WHERE name=:p0 AND id=:p1",
       some [("p0", Val.str "Earth"), ("p1", Val.int 1)]) := by
  rfl

/-- **C2.** Materializing the single column-oriented page
`{columns: [{name: "id", values: [1, 2]}, {name: "name", values: ["a", "b"]}]}`
yields the row buffer `[(1, "a"), (2, "b")]`, the inferred column
description `["id", "name"]`, row count 2, and a single page fetch. -/
theorem columnar_page_materialization :
    fetchResults (fun _ _ => columnarPage) 1 5 =
      some (.ok ⟨[[Val.int 1, Val.str "a"], [Val.int 2, Val.str "b"]],
                 some ["id", "name"], 2, 1⟩) := by
  rfl

/-- **C6.** Paginating a result with `total_rows = 5` against a server
returning row-oriented pages of 2, 2, 1 rows at offsets 0, 2, 4
performs exactly 3 page fetches and produces exactly the 5 rows, none
duplicated. -/
theorem pagination_five_rows :
    fetchResults fiveRowServer 2 10 =
      some (.ok ⟨[[Val.int 1], [Val.int 2], [Val.int 3], [Val.int 4], [Val.int 5]],
                 some ["id"], 5, 3⟩) ∧
    ([[Val.int 1], [Val.int 2], [Val.int 3], [Val.int 4], [Val.int 5]] : List Row).Nodup :=
  ⟨rfl, by decide⟩

/-- **C1, counterexample.** The claim says that columns of unequal
lengths still materialize, with the shortest column length as row
count.  On the page whose columns hold 2 and 1 values, the code instead
uses the FIRST column's length (`n_local = len(values_lists[0])`) and
indexing the short second column raises `IndexError`: materialization
does not succeed at all (and certainly does not yield 1 row). -/
theorem columnar_min_length_counterexample :
    fetchResults (fun _ _ => unevenColumnarPage) 1 5 =
      some (.indexError (some ["id", "name"]) 1) := by
  rfl

theorem intervalSeq_shift (q : ℚ) (n : ℕ) :
    intervalSeq q (n + 1) = intervalSeq (min (q * (3 / 2)) 5) n := by
  induction n with
  | zero => rfl
  | succ n ih =>
      simp only [intervalSeq] at ih ⊢
      rw [ih]

theorem intervalSeq_lb (q : ℚ) (hq : 1 / 2 ≤ q) (n : ℕ) :
    1 / 2 ≤ intervalSeq q n := by
  induction n with
  | zero => exact hq
  | succ n ih =>
      simp only [intervalSeq]
      refine le_min ?_ (by norm_num)
      nlinarith

theorem map_intervalSeq_range_succ (q : ℚ) (k : ℕ) :
    (List.range (k + 1)).map (intervalSeq q) =
      q :: (List.range k).map (intervalSeq (min (q * (3 / 2)) 5)) := by
  rw [List.range_succ_eq_map, List.map_cons, List.map_map]
  have hmap : (intervalSeq q ∘ Nat.succ) = intervalSeq (min (q * (3 / 2)) 5) := by
    funext n
    simp only [Function.comp_apply]
    exact intervalSeq_shift q n
  rw [hmap]
  rfl

theorem partialSleep_shift (q : ℚ) (k : ℕ) :
    partialSleep q (k + 1) = q + partialSleep (min (q * (3 / 2)) 5) k := by
  unfold partialSleep
  rw [map_intervalSeq_range_succ, List.sum_cons]

theorem partialSleep_nonneg (q : ℚ) (hq : 1 / 2 ≤ q) (k : ℕ) :
    0 ≤ partialSleep q k := by
  unfold partialSleep
  apply List.sum_nonneg
  intro x hx
  simp only [List.mem_map] at hx
  obtain ⟨n, _, rfl⟩ := hx
  linarith [intervalSeq_lb q hq n]

theorem pending_not_terminal {s : String} (h : isPendingState s = true) :
    isSucceededState s = false ∧ isFailedState s = false := by
  simp only [isPendingState, Bool.or_eq_true, decide_eq_true_eq] at h
  rcases h with ((h | h) | h) | h <;> subst h <;> exact ⟨by decide, by decide⟩

theorem failed_not_succeeded {s : String} (h : isFailedState s = true) :
    isSucceededState s = false := by
  simp only [isFailedState, Bool.or_eq_true, decide_eq_true_eq] at h
  rcases h with (h | h) | h <;> subst h <;> decide

theorem pollAux_pending_run (f : ℕ → StatusResponse) :
    ∀ (k i fuel : ℕ) (q e : ℚ), 1 / 2 ≤ q → k + 1 ≤ fuel →
      (∀ j, j < k → isPendingState ((f (i + j)).state.getD "UNKNOWN") = true) →
      (isSucceededState ((f (i + k)).state.getD "UNKNOWN") = true ∨
        isFailedState ((f (i + k)).state.getD "UNKNOWN") = true) →
      e + partialSleep q k < 300 →
      ∃ r, pollAux f fuel i q e = some r ∧
        r.sleeps = (List.range k).map (intervalSeq q) ∧ r.polls = k + 1 := by
  intro k
  induction k with
  | zero =>
      intro i fuel q e hq hfuel hpend hterm hdl
      obtain ⟨m, rfl⟩ : ∃ m, fuel = m + 1 := ⟨fuel - 1, by omega⟩
      have he : e < 300 := by
        have h0 : partialSleep q 0 = 0 := rfl
        rw [h0] at hdl
        linarith
      rw [Nat.add_zero] at hterm
      rcases hterm with hs | hf
      · exact ⟨.success [] 1, by simp [pollAux, he, hs], rfl, rfl⟩
      · have hns := failed_not_succeeded hf
        exact ⟨.dbError ("Statement execution failed: " ++
            ((f i).description.getD "Unknown error")) [] 1,
          by simp [pollAux, he, hns, hf], rfl, rfl⟩
  | succ k ih =>
      intro i fuel q e hq hfuel hpend hterm hdl
      obtain ⟨m, rfl⟩ : ∃ m, fuel = m + 1 := ⟨fuel - 1, by omega⟩
      have hq' : 1 / 2 ≤ min (q * (3 / 2)) 5 := le_min (by nlinarith) (by norm_num)
      have hshift := partialSleep_shift q k
      have hps : 0 ≤ partialSleep (min (q * (3 / 2)) 5) k := partialSleep_nonneg _ hq' k
      have he : e < 300 := by rw [hshift] at hdl; linarith
      have hp0 : isPendingState ((f (i + 0)).state.getD "UNKNOWN") = true :=
        hpend 0 (by omega)
      rw [Nat.add_zero] at hp0
      obtain ⟨hns, hnf⟩ := pending_not_terminal hp0
      obtain ⟨r, hr, hsleeps, hpolls⟩ := ih (i + 1) m (min (q * (3 / 2)) 5) (e + q) hq'
        (by omega)
        (fun j hj => by
          have hx := hpend (j + 1) (by omega)
          rwa [show i + (j + 1) = i + 1 + j by omega] at hx)
        (by rwa [show i + 1 + k = i + (k + 1) by omega])
        (by rw [hshift] at hdl; linarith)
      refine ⟨r.withSleep q, ?_, ?_, ?_⟩
      · simp [pollAux, he, hp0, hns, hnf, hr]
      · have hws : (r.withSleep q).sleeps = q :: r.sleeps := by cases r <;> rfl
        rw [hws, hsleeps, map_intervalSeq_range_succ]
      · have hwp : (r.withSleep q).polls = r.polls + 1 := by cases r <;> rfl
        rw [hwp, hpolls]

/-- **C4.** For every run in which the server reports a pending state
`k` times before a terminal state (and the terminal report is actually
reached, i.e. the cumulative backoff of the `k` pending polls stays
below the 300-unit deadline), the poller sleeps exactly `k` times with
the intervals `0.5, 0.75, 1.125, ...` — each `1.5` times the previous,
capped at `5.0` — and it issues exactly `k + 1` status requests, hence
none after the first terminal state. -/
theorem poll_backoff_schedule (f : ℕ → StatusResponse) (k fuel : ℕ)
    (hfuel : k + 1 ≤ fuel)
    (hpend : ∀ j, j < k → isPendingState ((f j).state.getD "UNKNOWN") = true)
    (hterm : isSucceededState ((f k).state.getD "UNKNOWN") = true ∨
      isFailedState ((f k).state.getD "UNKNOWN") = true)
    (hdeadline : partialSleep (1 / 2) k < 300) :
    ∃ r, pollForResults f fuel = some r ∧
      r.sleeps = (List.range k).map backoff ∧
      r.polls = k + 1 ∧
      backoff 0 = 1 / 2 ∧
      ∀ n, backoff (n + 1) = min (backoff n * (3 / 2)) 5 := by
  obtain ⟨r, hr, hs, hp⟩ := pollAux_pending_run f k 0 fuel (1 / 2) 0 (le_refl _) hfuel
    (fun j hj => by simpa using hpend j hj)
    (by simpa using hterm)
    (by simpa using hdeadline)
  exact ⟨r, hr, hs, hp, rfl, fun n => rfl⟩

/-- Witness for C4: two pending polls followed by success yields the
sleep schedule `[0.5, 0.75]` and three status requests. -/
theorem poll_backoff_schedule_witness :
    ∃ r, pollForResults twoPendingStatuses 3 = some r ∧
      r.sleeps = (List.range 2).map backoff ∧
      r.polls = 2 + 1 ∧
      backoff 0 = 1 / 2 ∧
      ∀ n, backoff (n + 1) = min (backoff n * (3 / 2)) 5 :=
  poll_backoff_schedule twoPendingStatuses 2 3 (by norm_num)
    (fun j hj => by interval_cases j <;> decide)
    (Or.inl (by decide))
    (by norm_num [partialSleep, intervalSeq, List.range_succ])

theorem pollAux_no_fuel_exhaustion (f : ℕ → StatusResponse) :
    ∀ (fuel i : ℕ) (q e : ℚ), 1 / 2 ≤ q → 300 ≤ e + (fuel : ℚ) * (1 / 2) →
      (pollAux f (fuel + 1) i q e).isSome = true := by
  intro fuel
  induction fuel with
  | zero =>
      intro i q e hq hdl
      have he : ¬ e < 300 := by push_cast at hdl; linarith
      simp [pollAux, he]
  | succ m ih =>
      intro i q e hq hdl
      by_cases he : e < 300
      · by_cases h1 : isSucceededState ((f i).state.getD "UNKNOWN") = true
        · simp [pollAux, he, h1]
        · by_cases h2 : isFailedState ((f i).state.getD "UNKNOWN") = true
          · simp [pollAux, he, h1, h2]
          · by_cases h3 : isPendingState ((f i).state.getD "UNKNOWN") = true
            · have hq' : 1 / 2 ≤ min (q * (3 / 2)) 5 := le_min (by nlinarith) (by norm_num)
              have hdl' : 300 ≤ (e + q) + (m : ℚ) * (1 / 2) := by
                push_cast at hdl ⊢
                linarith
              obtain ⟨r, hr⟩ := Option.isSome_iff_exists.mp
                (ih (i + 1) (min (q * (3 / 2)) 5) (e + q) hq' hdl')
              rw [pollAux, if_pos he, if_neg h1, if_neg h2, if_pos h3, hr]
              rfl
            · simp [pollAux, he, h1, h2, h3]
      · simp [pollAux, he]

theorem pollAux_timeout_le_sum (f : ℕ → StatusResponse) :
    ∀ (fuel i : ℕ) (q e : ℚ) (s : List ℚ) (p : ℕ),
      pollAux f fuel i q e = some (.timeout s p) → 300 ≤ e + s.sum := by
  intro fuel
  induction fuel with
  | zero =>
      intro i q e s p h
      exact absurd h (by simp [pollAux])
  | succ m ih =>
      intro i q e s p h
      by_cases he : e < 300
      · by_cases h1 : isSucceededState ((f i).state.getD "UNKNOWN") = true
        · simp [pollAux, he, h1] at h
        · by_cases h2 : isFailedState ((f i).state.getD "UNKNOWN") = true
          · simp [pollAux, he, h1, h2] at h
          · by_cases h3 : isPendingState ((f i).state.getD "UNKNOWN") = true
            · rw [pollAux, if_pos he, if_neg h1, if_neg h2, if_pos h3] at h
              cases hrec : pollAux f m (i + 1) (min (q * (3 / 2)) 5) (e + q) with
              | none => rw [hrec] at h; simp at h
              | some r =>
                  rw [hrec] at h
                  cases r with
                  | success s' p' => simp [PollResult.withSleep] at h
                  | dbError m' s' p' => simp [PollResult.withSleep] at h
                  | timeout s' p' =>
                      have hsum := ih (i + 1) (min (q * (3 / 2)) 5) (e + q) s' p' hrec
                      have h' : some (PollResult.timeout (q :: s') (p' + 1)) =
                          some (PollResult.timeout s p) := h
                      have h2eq : PollResult.timeout (q :: s') (p' + 1) =
                          PollResult.timeout s p := Option.some.inj h'
                      have hseq : q :: s' = s := by injection h2eq
                      rw [← hseq]
                      simp only [List.sum_cons]
                      linarith
            · simp [pollAux, he, h1, h2, h3] at h
      · have hge : (300 : ℚ) ≤ e := le_of_not_lt he
        simp only [pollAux, if_neg he, Option.some.injEq,
          PollResult.timeout.injEq] at h
        obtain ⟨hseq, hpeq⟩ := h
        rw [← hseq]
        simpa using hge

theorem pollAux_pending_forever_timeout (f : ℕ → StatusResponse)
    (hp : ∀ i, isPendingState ((f i).state.getD "UNKNOWN") = true) :
    ∀ (fuel i : ℕ) (q e : ℚ) (r : PollResult),
      pollAux f fuel i q e = some r → ∃ s p, r = .timeout s p := by
  intro fuel
  induction fuel with
  | zero =>
      intro i q e r h
      exact absurd h (by simp [pollAux])
  | succ m ih =>
      intro i q e r h
      by_cases he : e < 300
      · obtain ⟨hns, hnf⟩ := pending_not_terminal (hp i)
        have hns' : ¬ isSucceededState ((f i).state.getD "UNKNOWN") = true := by
          simp [hns]
        have hnf' : ¬ isFailedState ((f i).state.getD "UNKNOWN") = true := by
          simp [hnf]
        rw [pollAux, if_pos he, if_neg hns', if_neg hnf', if_pos (hp i)] at h
        cases hrec : pollAux f m (i + 1) (min (q * (3 / 2)) 5) (e + q) with
        | none => rw [hrec] at h; simp at h
        | some r' =>
            rw [hrec] at h
            simp only [Option.some.injEq] at h
            obtain ⟨s, p, rfl⟩ := ih (i + 1) (min (q * (3 / 2)) 5) (e + q) r' hrec
            exact ⟨q :: s, p + 1, h.symm⟩
      · rw [pollAux, if_neg he] at h
        simp only [Option.some.injEq] at h
        exact ⟨[], 0, h.symm⟩

/-- **C5.** If every status poll returns a pending state, the poller
always terminates — with fuel covering the 300-unit deadline the loop
cannot exhaust it — and raises the operational timeout error, with
cumulative sleep at least 300. -/
theorem poll_deadline_terminates (f : ℕ → StatusResponse) (fuel : ℕ)
    (hfuel : 601 ≤ fuel) :
    (pollForResults f fuel).isSome = true ∧
    ((∀ i, isPendingState ((f i).state.getD "UNKNOWN") = true) →
      ∃ s p, pollForResults f fuel = some (.timeout s p) ∧ 300 ≤ s.sum) := by
  have hcast : (600 : ℚ) ≤ ((fuel - 1 : ℕ) : ℚ) :=
    by exact_mod_cast (by omega : 600 ≤ fuel - 1)
  have hsome : (pollForResults f fuel).isSome = true := by
    unfold pollForResults
    rw [show fuel = (fuel - 1) + 1 by omega]
    exact pollAux_no_fuel_exhaustion f (fuel - 1) 0 (1 / 2) 0 (le_refl _)
      (by linarith)
  refine ⟨hsome, fun hp => ?_⟩
  obtain ⟨r, hr⟩ := Option.isSome_iff_exists.mp hsome
  obtain ⟨s, p, rfl⟩ := pollAux_pending_forever_timeout f hp fuel 0 (1 / 2) 0 r hr
  have hsum := pollAux_timeout_le_sum f fuel 0 (1 / 2) 0 s p hr
  exact ⟨s, p, hr, by linarith⟩

/-- Witness for C5: a server that reports `RUNNING` forever makes the
poller terminate with a timeout whose cumulative sleep reaches 300. -/
theorem poll_deadline_terminates_witness :
    ∃ s p, pollForResults foreverPending 601 = some (.timeout s p) ∧ 300 ≤ s.sum :=
  (poll_deadline_terminates foreverPending 601 (by norm_num)).2
    (fun i => by simp only [foreverPending]; decide)

theorem mapOpt_eq_map {α β : Type} (g : α → Option β) (r : α → β) :
    ∀ l : List α, (∀ a ∈ l, g a = some (r a)) → mapOpt g l = some (l.map r) := by
  intro l
  induction l with
  | nil => intro _; rfl
  | cons a as ih =>
      intro h
      have ha := h a (List.mem_cons_self a as)
      have has := ih (fun x hx => h x (List.mem_cons_of_mem a hx))
      simp [mapOpt, ha, has]

theorem mapOpt_eq_none {α β : Type} (g : α → Option β) :
    ∀ (l : List α) (a : α), a ∈ l → g a = none → mapOpt g l = none := by
  intro l
  induction l with
  | nil => intro a ha; cases ha
  | cons b bs ih =>
      intro a ha hga
      rcases List.mem_cons.mp ha with rfl | hmem
      · rw [mapOpt, hga]
      · rw [mapOpt, ih a hmem hga]
        cases g b <;> rfl

theorem get?_eq_some_getD : ∀ (l : List Val) (i : ℕ), i < l.length →
    l.get? i = some (l.getD i .null) := by
  intro l
  induction l with
  | nil => intro i hi; simp at hi
  | cons x xs ih =>
      intro i hi
      cases i with
      | zero => rfl
      | succ n =>
          have hx := ih n (by simpa using hi)
          simpa using hx

theorem get?_eq_none_of_le : ∀ (l : List Val) (i : ℕ), l.length ≤ i →
    l.get? i = none := by
  intro l
  induction l with
  | nil => intro i _; rfl
  | cons x xs ih =>
      intro i hi
      cases i with
      | zero => simp at hi
      | succ n => simpa using ih n (by simpa using hi)

theorem transposeCols_complete (v0 : List Val) (rest : List (List Val))
    (h : ∀ v ∈ v0 :: rest, v0.length ≤ v.length) :
    transposeCols (v0 :: rest) =
      some ((List.range v0.length).map
        (fun i => (v0 :: rest).map (fun v => v.getD i .null))) := by
  unfold transposeCols
  apply mapOpt_eq_map
  intro i hi
  have hi' : i < v0.length := List.mem_range.mp hi
  apply mapOpt_eq_map
  intro v hv
  exact get?_eq_some_getD v i (lt_of_lt_of_le hi' (h v hv))

theorem transposeCols_fail (v0 : List Val) (rest : List (List Val))
    (v : List Val) (hv : v ∈ v0 :: rest) (hshort : v.length < v0.length) :
    transposeCols (v0 :: rest) = none := by
  unfold transposeCols
  apply mapOpt_eq_none _ _ v.length (List.mem_range.mpr hshort)
  apply mapOpt_eq_none _ _ v hv
  exact get?_eq_none_of_le v v.length (le_refl _)

/-- **C1, amended.** For a column-oriented page the per-page row count
is the FIRST column's value-sequence length (`n_local =
len(values_lists[0])`), not the shortest one.  When every other column
is at least as long as the first, materialization succeeds and yields
exactly first-column-length row tuples (transposed column-by-column);
when some column is shorter than the first, the transposition raises
`IndexError` instead of succeeding.  (Success with min-length rows thus
occurs exactly when the first column is a shortest column.) -/
theorem columnar_transpose_first_length (st : FetchState)
    (trf : Option (Option ℤ)) (cols : List ColumnMeta) (np : Bool)
    (c0 : ColEntry) (rest : List ColEntry) :
    ((∀ c ∈ c0 :: rest, c0.values.length ≤ c.values.length) →
      ∃ st', processPage st ⟨trf, cols, .colData (c0 :: rest), np⟩ = .ok st' ∧
        st'.rows = st.rows ++ (List.range c0.values.length).map
          (fun i => (c0 :: rest).map (fun c => c.values.getD i .null)) ∧
        st'.rows.length = st.rows.length + c0.values.length) ∧
    (∀ c, c ∈ c0 :: rest → c.values.length < c0.values.length →
      ∃ d, processPage st ⟨trf, cols, .colData (c0 :: rest), np⟩ = .error d) := by
  constructor
  · intro h
    have hall : ∀ v ∈ c0.values :: rest.map (fun c => c.values),
        c0.values.length ≤ v.length := by
      intro v hv
      rcases List.mem_cons.mp hv with rfl | hv'
      · exact le_refl _
      · obtain ⟨c, hc, rfl⟩ := List.mem_map.mp hv'
        exact h c (List.mem_cons_of_mem _ hc)
    have htr := transposeCols_complete c0.values (rest.map (fun c => c.values)) hall
    simp only [processPage, List.map_cons]
    rw [if_neg (List.cons_ne_nil c0 rest)]
    rw [htr]
    refine ⟨_, rfl, ?_, ?_⟩
    · simp only [List.map_cons, List.map_map]
      rfl
    · simp
  · intro c hc hshort
    have hmem : c.values ∈ c0.values :: rest.map (fun cc => cc.values) := by
      rcases List.mem_cons.mp hc with rfl | hmem'
      · exact List.mem_cons_self _ _
      · exact List.mem_cons_of_mem _ (List.mem_map_of_mem _ hmem')
    have htr := transposeCols_fail c0.values (rest.map (fun cc => cc.values))
      c.values hmem hshort
    simp only [processPage, List.map_cons]
    rw [if_neg (List.cons_ne_nil c0 rest)]
    rw [htr]
    exact ⟨_, rfl⟩

/-- Witness for the amended C1: a page whose first column holds one
value and whose second column holds two materializes into exactly one
row, the transposition of the first value of each column. -/
theorem columnar_transpose_first_length_witness :
    ∃ st', processPage ⟨[], none, false, none⟩
        ⟨none, [], .colData [⟨some "id", [Val.int 7]⟩, ⟨some "x", [Val.int 8, Val.int 9]⟩],
         false⟩ = .ok st' ∧
      st'.rows = ([] : List Row) ++ (List.range 1).map
        (fun i => [(⟨some "id", [Val.int 7]⟩ : ColEntry),
                   ⟨some "x", [Val.int 8, Val.int 9]⟩].map
          (fun c => c.values.getD i .null)) ∧
      st'.rows.length = ([] : List Row).length + 1 :=
  (columnar_transpose_first_length ⟨[], none, false, none⟩ none [] false
    ⟨some "id", [Val.int 7]⟩ [⟨some "x", [Val.int 8, Val.int 9]⟩]).1
    (fun c hc => by
      rcases List.mem_cons.mp hc with rfl | hc'
      · decide
      · simp at hc'
        subst hc'
        decide)

/-- **C7.** The progress guard of the pagination loop: after a page is
processed, if the new buffered total gained no rows over the pre-page
offset (`fetched_this_page <= 0`) the loop stops immediately after that
page — the result is returned with exactly one more fetch, so a server
returning empty or duplicate pages cannot cause an infinite loop;
otherwise (when no other termination condition fires) the loop
continues with the offset advanced by exactly the rows gained, i.e. to
the new buffered total. -/
theorem pagination_progress_guard (server : PageServer)
    (pageSize fuel offset fetches : ℕ) (st st' : FetchState)
    (hstep : processPage st (server pageSize offset) = .ok st') :
    (st'.rows.length ≤ offset →
      fetchAux server pageSize (fuel + 1) offset st fetches =
        some (.ok ⟨st'.rows, st'.description, st'.rows.length, fetches + 1⟩)) ∧
    (offset < st'.rows.length →
      totalReached st'.totalRows st'.rows.length = false →
      (!(server pageSize offset).next_page &&
        totalNoneOrReached st'.totalRows st'.rows.length) = false →
      fetchAux server pageSize (fuel + 1) offset st fetches =
        fetchAux server pageSize fuel st'.rows.length st' (fetches + 1)) := by
  constructor
  · intro hle
    simp only [fetchAux, hstep]
    rw [if_pos (show (st'.rows.length : ℤ) - (offset : ℤ) ≤ 0 by omega)]
  · intro hlt h2 h3
    simp only [fetchAux, hstep]
    rw [if_neg (show ¬ ((st'.rows.length : ℤ) - (offset : ℤ) ≤ 0) by omega)]
    rw [show offset + ((st'.rows.length : ℤ) - (offset : ℤ)).toNat = st'.rows.length
      by omega]
    rw [if_neg (show ¬ totalReached st'.totalRows st'.rows.length = true by simp [h2])]
    rw [if_neg (show ¬ (!(server pageSize offset).next_page &&
        totalNoneOrReached st'.totalRows st'.rows.length) = true by simp [h3])]

/-- Witness for C7: a server returning only empty pages terminates the
pagination loop after a single fetch with an empty buffer. -/
theorem pagination_progress_guard_witness :
    fetchAux emptyPageServer 1 3 0 ⟨[], none, false, none⟩ 0 =
      some (.ok ⟨[], none, 0, 1⟩) :=
  (pagination_progress_guard emptyPageServer 1 2 0 0 ⟨[], none, false, none⟩
    ⟨[], none, false, none⟩ rfl).1 (Nat.le_refl 0)

/-- **C3, counterexample.** The claim requires every operation on a
cursor of a closed session to fail with a programming error.
`Connection.close` only marks the connection itself closed, and
`Cursor.fetchone` consults only the cursor's own closed flag (it never
touches the connection), so after closing the session a fetch on an
outstanding cursor — whose own `close` was never called — silently
returns a buffered row instead of raising. -/
theorem closed_session_fetch_counterexample :
    (Connection.close ⟨false⟩).closed = true ∧
    Cursor.fetchone outstandingCursor =
      .ok (some [Val.int 1], { outstandingCursor with rowIndex := 1 }) :=
  ⟨rfl, rfl⟩

/-- **C3, amended.** After a session is closed, the operations that go
through the connection fail with a programming error: `execute` (whose
submission step calls the connection's closed-check) and every direct
use of `Connection._check_closed`.  But `fetchone`, `fetchmany` and
`fetchall` on an outstanding cursor whose own `close` was never called
operate purely on the materialized buffer, never consult the
connection, and still succeed. -/
theorem closed_session_invalidates_connection_ops
    (conn : Connection) (cur : Cursor) (b : ServerBehavior) (fuel : ℕ)
    (op : String) (ps : Option Params)
    (hconn : conn.closed = true) (hcur : cur.closed = false) :
    Cursor.execute conn b fuel cur op ps =
      some (.error (.programmingError "Connection is closed"),
        { cur with rows := [], rowIndex := 0, description := none, rowcount := -1 }) ∧
    Connection.checkClosed conn = .error (.programmingError "Connection is closed") ∧
    (Cursor.fetchone cur =
      (if cur.rowIndex ≥ cur.rows.length then .ok (none, cur)
       else .ok (cur.rows.get? cur.rowIndex, { cur with rowIndex := cur.rowIndex + 1 }))) ∧
    (Cursor.fetchmany cur none =
      .ok ((cur.rows.drop cur.rowIndex).take cur.arraysize,
        { cur with rowIndex :=
            cur.rowIndex + ((cur.rows.drop cur.rowIndex).take cur.arraysize).length })) ∧
    (Cursor.fetchall cur =
      .ok (cur.rows.drop cur.rowIndex, { cur with rowIndex := cur.rows.length })) := by
  refine ⟨?_, ?_, ?_, ?_, ?_⟩
  · simp [Cursor.execute, hconn, hcur]
  · simp [Connection.checkClosed, hconn]
  · simp [Cursor.fetchone, hcur]
  · simp [Cursor.fetchmany, hcur]
  · simp [Cursor.fetchall, hcur]

/-- Witness for the amended C3: with the session closed and an open
outstanding one-row cursor, `execute` raises the programming error
while the fetch operations still return buffered data. -/
theorem closed_session_invalidates_connection_ops_witness :
    Cursor.execute ⟨true⟩ trivialBehavior 5 outstandingCursor "SELECT 1" none =
      some (.error (.programmingError "Connection is closed"),
        ⟨false, [], 0, none, -1, 1, some "h"⟩) ∧
    Connection.checkClosed ⟨true⟩ = .error (.programmingError "Connection is closed") ∧
    (Cursor.fetchone outstandingCursor =
      (if outstandingCursor.rowIndex ≥ outstandingCursor.rows.length then
        .ok (none, outstandingCursor)
       else .ok (outstandingCursor.rows.get? outstandingCursor.rowIndex,
        { outstandingCursor with rowIndex := outstandingCursor.rowIndex + 1 }))) ∧
    (Cursor.fetchmany outstandingCursor none =
      .ok ((outstandingCursor.rows.drop outstandingCursor.rowIndex).take
            outstandingCursor.arraysize,
        { outstandingCursor with rowIndex := outstandingCursor.rowIndex +
            ((outstandingCursor.rows.drop outstandingCursor.rowIndex).take
              outstandingCursor.arraysize).length })) ∧
    (Cursor.fetchall outstandingCursor =
      .ok (outstandingCursor.rows.drop outstandingCursor.rowIndex,
        { outstandingCursor with rowIndex := outstandingCursor.rows.length })) :=
  closed_session_invalidates_connection_ops ⟨true⟩ outstandingCursor trivialBehavior 5
    "SELECT 1" none rfl rfl

/-- **C9.** Credential resolution is never fatal: whenever the body of
the authentication block raises, the enclosing handler absorbs the
error and cursor creation proceeds with no token installed; when either
credential is absent or falsy the block is skipped silently (no request
and no error); a transport failure or a token-less response likewise
leaves the cursor and session without a bearer token. -/
theorem auth_failure_never_fatal (username secret : Option String)
    (host : String) (ssl : Bool) (http : AuthHttp) :
    (∀ e, authTryBody username secret host ssl http = .error e →
      cursorAuthInit username secret host ssl http = ⟨none, none⟩) ∧
    ((pyTruthy username = false ∨ pyTruthy secret = false) →
      authTryBody username secret host ssl http = .ok ⟨none, none⟩ ∧
      cursorAuthInit username secret host ssl http = ⟨none, none⟩) ∧
    (http = .transportError →
      cursorAuthInit username secret host ssl http = ⟨none, none⟩) ∧
    (∀ body, http = .ok body → pyTruthy (tokenFromBody body) = false →
      cursorAuthInit username secret host ssl http = ⟨none, none⟩) := by
  refine ⟨?_, ?_, ?_, ?_⟩
  · intro e he
    unfold cursorAuthInit
    rw [he]
  · intro hcred
    have hAnd : (pyTruthy username && pyTruthy secret) = false := by
      rcases hcred with h | h <;> simp [h]
    constructor
    · simp [authTryBody, hAnd]
    · simp [cursorAuthInit, authTryBody, hAnd]
  · rintro rfl
    by_cases hc : (pyTruthy username && pyTruthy secret) = true
    · simp [cursorAuthInit, authTryBody, hc]
    · simp [cursorAuthInit, authTryBody, hc]
  · rintro body rfl htok
    by_cases hc : (pyTruthy username && pyTruthy secret) = true
    · simp [cursorAuthInit, authTryBody, hc, htok]
    · simp [cursorAuthInit, authTryBody, hc]

/-- Witness for C9: with credentials present and the token request
failing at transport level, cursor creation completes with no token and
no session header. -/
theorem auth_failure_never_fatal_witness :
    cursorAuthInit (some "client") (some "secret") "data.example.com" true
      .transportError = ⟨none, none⟩ :=
  (auth_failure_never_fatal (some "client") (some "secret") "data.example.com" true
    .transportError).2.2.1 rfl

/-- **C10, counterexample.** The claim says a failed `execute` leaves
`description = None`.  Against a server whose first result page carries
column metadata and whose second page raises `IndexError` during
columnar transposition (`_fetch_results` sets `self._description`
inside the loop, before rows are finalized), the failed `execute`
leaves the cursor with `description = ["id"]`, not `None` — while the
buffer is indeed empty. -/
theorem execute_failure_keeps_description_counterexample :
    Cursor.execute ⟨false⟩ failingFetchBehavior 10 staleCursor "SELECT 1" none =
      some (.error .indexError, ⟨false, [], 0, some ["id"], -1, 1, some "h"⟩) := by
  rfl

/-- **C10, amended.** `execute` discards the previous materialized
result up front: for every open cursor, if `execute` raises at any
stage (submission, polling, or result retrieval), the cursor is left
with an empty row buffer, read position 0 and rowcount -1 — the prior
statement's rows are never still readable.  (The description, however,
may be non-`None` when the failure happened during result retrieval
after a page had already supplied column metadata.) -/
theorem execute_failure_resets_buffer
    (conn : Connection) (b : ServerBehavior) (fuel : ℕ) (cur : Cursor)
    (op : String) (ps : Option Params) (e : PyErr) (cur' : Cursor)
    (hopen : cur.closed = false)
    (h : Cursor.execute conn b fuel cur op ps = some (.error e, cur')) :
    cur'.rows = [] ∧ cur'.rowIndex = 0 ∧ cur'.rowcount = -1 := by
  by_cases hconn : conn.closed = true
  · simp [Cursor.execute, hopen, hconn] at h
    obtain ⟨-, hcur⟩ := h
    subst hcur
    exact ⟨rfl, rfl, rfl⟩
  · cases hs : b.submit with
    | error e' =>
        simp [Cursor.execute, hopen, hconn, hs] at h
        obtain ⟨-, hcur⟩ := h
        subst hcur
        exact ⟨rfl, rfl, rfl⟩
    | ok resp =>
        by_cases hh : pyTruthy resp.statementHandle = false
        · simp [Cursor.execute, hopen, hconn, hs, hh] at h
          obtain ⟨-, hcur⟩ := h
          subst hcur
          exact ⟨rfl, rfl, rfl⟩
        · cases hp : pollForResults b.statuses fuel with
          | none => simp [Cursor.execute, hopen, hconn, hs, hh, hp] at h
          | some r =>
              cases r with
              | dbError m s p =>
                  simp [Cursor.execute, hopen, hconn, hs, hh, hp] at h
                  obtain ⟨-, hcur⟩ := h
                  subst hcur
                  exact ⟨rfl, rfl, rfl⟩
              | timeout s p =>
                  simp [Cursor.execute, hopen, hconn, hs, hh, hp] at h
                  obtain ⟨-, hcur⟩ := h
                  subst hcur
                  exact ⟨rfl, rfl, rfl⟩
              | success s p =>
                  cases hf : fetchResults b.pages cur.arraysize fuel with
                  | none => simp [Cursor.execute, hopen, hconn, hs, hh, hp, hf] at h
                  | some outcome =>
                      cases outcome with
                      | indexError d n =>
                          simp [Cursor.execute, hopen, hconn, hs, hh, hp, hf] at h
                          obtain ⟨-, hcur⟩ := h
                          subst hcur
                          exact ⟨rfl, rfl, rfl⟩
                      | ok r =>
                          simp [Cursor.execute, hopen, hconn, hs, hh, hp, hf] at h

/-- Witness for the amended C10: the failed execution of the
counterexample scenario indeed leaves an empty buffer, read position 0
and rowcount -1. -/
theorem execute_failure_resets_buffer_witness :
    (⟨false, [], 0, some ["id"], -1, 1, some "h"⟩ : Cursor).rows = [] ∧
    (⟨false, [], 0, some ["id"], -1, 1, some "h"⟩ : Cursor).rowIndex = 0 ∧
    (⟨false, [], 0, some ["id"], -1, 1, some "h"⟩ : Cursor).rowcount = -1 :=
  execute_failure_resets_buffer ⟨false⟩ failingFetchBehavior 10 staleCursor "SELECT 1"
    none .indexError ⟨false, [], 0, some ["id"], -1, 1, some "h"⟩ rfl rfl

end Opteryx
